import Mathlib

/-!
Shallow embedding of the job-service core of the LAK Goods Transport
Application: the job data model, the lifecycle operations, the query
service, the HTTP route handlers for jobs, and the top-level error
handler, together with theorems settling the specification claims.
-/

/-- Lifecycle status of a job. -/
inductive JobStatus where
  | Posted
  | Applied
  | Assigned
  | Denied
  | Completed
deriving DecidableEq, Repr

/-- A job document as stored by the Job Repository. -/
structure Job where
  id : String
  ownerId : String
  status : JobStatus
  applicants : List String
  assignedDriverId : Option String
  images : List String
  title : String
  createdAt : Nat
  finishedAt : Option Nat
deriving DecidableEq, Repr

/-- Error kinds raised by the service layer and route handlers. -/
inductive ServiceError where
  | validationError (code : String)
  | authorizationError
  | notFoundError
  | conflictError
  | stateError
deriving DecidableEq, Repr

/-- Descriptive payload fields of a job create/update request; opaque to
the lifecycle logic, validated only for presence. -/
structure JobPayload where
  title : Option String
deriving DecidableEq, Repr

/-- Modelled from the spec: `createJob` of `services/job` is not under
src/ (only its route caller is). It validates that required payload
fields are present, stores the uploaded image references, and persists a
new job with status `Posted`, owner `userId` and empty applicants. -/
def createJob (userId : String) (newId : String) (p : JobPayload)
    (images : List String) (now : Nat) : Except ServiceError Job :=
  match p.title with
  | none => Except.error (ServiceError.validationError "MISSING_PAYLOAD_FIELD")
  | some t =>
      Except.ok
        { id := newId, ownerId := userId, status := JobStatus.Posted,
          applicants := [], assignedDriverId := none, images := images,
          title := t, createdAt := now, finishedAt := none }

/-- Modelled from the spec: `updateJob` of `services/job` is not under
src/. It fails with an authorization error unless the caller is the
owner, and merges the non-null payload fields, leaving lifecycle fields
untouched. -/
def updateJob (userId : String) (job : Job) (p : JobPayload)
    (images : List String) : Except ServiceError Job :=
  if userId = job.ownerId then
    Except.ok { job with title := p.title.getD job.title,
                         images := job.images ++ images }
  else Except.error ServiceError.authorizationError

/-- Modelled from the spec: `addJobApplicant` of `services/job` is not
under src/. It fails with an authorization error when the caller is the
owner, with a conflict error when the user is already an applicant or
already the assigned driver, and otherwise records the application. -/
def addJobApplicant (job : Job) (userId : String) : Except ServiceError Job :=
  if userId = job.ownerId then
    Except.error ServiceError.authorizationError
  else if userId ∈ job.applicants ∨ job.assignedDriverId = some userId then
    Except.error ServiceError.conflictError
  else
    Except.ok { job with
      applicants := job.applicants ++ [userId],
      status := if job.status = JobStatus.Posted then JobStatus.Applied
                else job.status }

/-- Modelled from the spec: `assignDriver` of `services/job` is not under
src/. It fails with an authorization error unless the caller is the
owner, with a state error when the job is already assigned or completed,
and otherwise sets the assigned driver and moves the job to `Assigned`. -/
def assignDriver (job : Job) (callerId : String) (driverId : String) :
    Except ServiceError Job :=
  if callerId = job.ownerId then
    if job.status = JobStatus.Assigned ∨ job.status = JobStatus.Completed then
      Except.error ServiceError.stateError
    else
      Except.ok { job with status := JobStatus.Assigned,
                           assignedDriverId := some driverId }
  else Except.error ServiceError.authorizationError

/-- Modelled from the spec: `denyDriver` of `services/job` is not under
src/. It fails with an authorization error unless the caller is the
owner, with a not-found-class error when the driver is not an applicant,
and otherwise removes the driver from the applicant list without
altering the status enum. -/
def denyDriver (job : Job) (callerId : String) (driverId : String) :
    Except ServiceError Job :=
  if callerId = job.ownerId then
    if driverId ∈ job.applicants then
      Except.ok { job with applicants := job.applicants.erase driverId }
    else Except.error ServiceError.notFoundError
  else Except.error ServiceError.authorizationError

/-- Modelled from the spec: `completeJob` of `services/job` is not under
src/. It fails with an authorization error unless the caller is the
owner or the assigned driver, with a state error when the job is not
currently `Assigned`, and otherwise marks it `Completed` and records the
finishing time. -/
def completeJob (job : Job) (callerId : String) (now : Nat) :
    Except ServiceError Job :=
  if callerId = job.ownerId ∨ job.assignedDriverId = some callerId then
    if job.status = JobStatus.Assigned then
      Except.ok { job with status := JobStatus.Completed,
                           finishedAt := some now }
    else Except.error ServiceError.stateError
  else Except.error ServiceError.authorizationError

/-- Data-model invariant: the assigned driver field is set exactly when
the status is `Assigned` or `Completed`. -/
def assignedIffStatus (j : Job) : Prop :=
  j.assignedDriverId.isSome = true ↔
    (j.status = JobStatus.Assigned ∨ j.status = JobStatus.Completed)

/-- Example job used by concrete witnesses. -/
def job0 : Job :=
  { id := "job1", ownerId := "owner1", status := JobStatus.Posted,
    applicants := [], assignedDriverId := none, images := [],
    title := "t", createdAt := 0, finishedAt := none }

/-- C1: for every job, `assignedDriverId` is non-null exactly when the
status is `Assigned` or `Completed`; `createJob` establishes this
invariant and every lifecycle operation (`addJobApplicant`,
`assignDriver`, `denyDriver`, `completeJob`, `updateJob`) preserves
it. -/
theorem lifecycle_preserves_assignedIffStatus :
    (∀ userId newId p images now j,
      createJob userId newId p images now = Except.ok j →
        assignedIffStatus j) ∧
    (∀ j u j', assignedIffStatus j →
      addJobApplicant j u = Except.ok j' → assignedIffStatus j') ∧
    (∀ j c d j', assignedIffStatus j →
      assignDriver j c d = Except.ok j' → assignedIffStatus j') ∧
    (∀ j c d j', assignedIffStatus j →
      denyDriver j c d = Except.ok j' → assignedIffStatus j') ∧
    (∀ j c now j', assignedIffStatus j →
      completeJob j c now = Except.ok j' → assignedIffStatus j') ∧
    (∀ u j p images j', assignedIffStatus j →
      updateJob u j p images = Except.ok j' → assignedIffStatus j') := by
  refine ⟨?_, ?_, ?_, ?_, ?_, ?_⟩
  · intro userId newId p images now j h
    cases hp : p.title <;> simp [createJob, hp] at h
    subst h
    simp [assignedIffStatus]
  · intro j u j' hinv h
    unfold addJobApplicant at h
    split at h
    · simp at h
    · split at h
      · simp at h
      · simp only [Except.ok.injEq] at h
        subst h
        unfold assignedIffStatus at hinv ⊢
        by_cases hs : j.status = JobStatus.Posted
        · simp [hs] at hinv ⊢
          simp [hinv]
        · simpa [hs] using hinv
  · intro j c d j' hinv h
    unfold assignDriver at h
    split at h
    · split at h
      · simp at h
      · simp only [Except.ok.injEq] at h
        subst h
        simp [assignedIffStatus]
    · simp at h
  · intro j c d j' hinv h
    unfold denyDriver at h
    split at h
    · split at h
      · simp only [Except.ok.injEq] at h
        subst h
        simpa [assignedIffStatus] using hinv
      · simp at h
    · simp at h
  · intro j c now j' hinv h
    unfold completeJob at h
    split at h
    · split at h
      case isTrue hs =>
        simp only [Except.ok.injEq] at h
        subst h
        simp [assignedIffStatus, hs] at hinv ⊢
        exact hinv
      case isFalse hs => simp at h
    · simp at h
  · intro u j p images j' hinv h
    unfold updateJob at h
    split at h
    · simp only [Except.ok.injEq] at h
      subst h
      simpa [assignedIffStatus] using hinv
    · simp at h

/-- Witness for C1: the invariant holds for a concretely created job. -/
theorem lifecycle_preserves_assignedIffStatus_witness :
    assignedIffStatus job0 :=
  lifecycle_preserves_assignedIffStatus.1 "owner1" "job1"
    { title := some "t" } [] 0 job0 rfl

/-- The boolean filter triple of the job-listing request. -/
structure JobFilterQuery where
  owned : Bool
  assigned : Bool
  finished : Bool
deriving DecidableEq, Repr

/-- Modelled from the spec: the free-text search of `getJobIds` matches a
job when the search string occurs in its descriptive fields; absent
search matches every job. -/
def searchMatches (search : Option String) (j : Job) : Bool :=
  match search with
  | none => true
  | some s => (j.title.splitOn s).length != 1

/-- Modelled from the spec: whether a job matches the boolean filter
combination of `getJobIds` (owned: `ownerId` is the caller; assigned:
`assignedDriverId` is the caller; finished: status is `Completed`)
intersected with the free-text search. -/
def jobMatches (userId : String) (f : JobFilterQuery)
    (search : Option String) (j : Job) : Bool :=
  (!f.owned || decide (j.ownerId = userId)) &&
  (!f.assigned || decide (j.assignedDriverId = some userId)) &&
  (!f.finished || decide (j.status = JobStatus.Completed)) &&
  searchMatches search j

/-- Recency order on jobs: `a` is at least as recent as `b`. -/
def moreRecent (a b : Job) : Prop :=
  b.createdAt ≤ a.createdAt

instance : DecidableRel moreRecent :=
  fun a b => Nat.decLe b.createdAt a.createdAt

instance : IsTotal Job moreRecent :=
  ⟨fun a b => Nat.le_total b.createdAt a.createdAt⟩

instance : IsTrans Job moreRecent :=
  ⟨fun _ _ _ hab hbc => Nat.le_trans hbc hab⟩

/-- Modelled from the spec: the matching jobs of a `getJobIds` query,
ordered most-recent-first. -/
def sortedMatching (db : List Job) (userId : String) (f : JobFilterQuery)
    (search : Option String) : List Job :=
  List.insertionSort moreRecent (db.filter (jobMatches userId f search))

/-- Modelled from the spec: `getJobIds` of `services/job` is not under
src/ (only its route caller is). It returns the identifiers of the
matching jobs ordered most-recent-first, paginated by dropping `offset`
entries and taking at most `limit`. -/
def getJobIds (db : List Job) (userId : String) (f : JobFilterQuery)
    (limit offset : Nat) (search : Option String) : List String :=
  (((sortedMatching db userId f search).map Job.id).drop offset).take limit

/-- Repository lookup of a job document by its identifier. -/
def findJob (db : List Job) (i : String) : Option Job :=
  db.find? (fun j => j.id == i)

/-- Modelled from the spec: `getJobs` of `services/job` is not under
src/. It bulk-resolves a list of job ids in input order, silently
skipping ids that do not resolve to an existing job. -/
def getJobs (db : List Job) (jobIds : List String) (userId : String) :
    List Job :=
  jobIds.filterMap (findJob db)

/-- C6: `getJobs` resolves ids in input order, and an id that does not
resolve to an existing job is silently skipped, never failing the batch:
removing a dead id splits the result cleanly, the returned ids form an
order-preserving sublist of the input ids, and every id that does
resolve contributes its document. -/
theorem getJobs_skip_and_order (db : List Job) (userId : String) :
    (∀ l1 l2 bad, findJob db bad = none →
      getJobs db (l1 ++ bad :: l2) userId =
        getJobs db l1 userId ++ getJobs db l2 userId) ∧
    (∀ ids, ((getJobs db ids userId).map Job.id).Sublist ids) ∧
    (∀ ids i j, i ∈ ids → findJob db i = some j →
      j ∈ getJobs db ids userId) := by
  refine ⟨?_, ?_, ?_⟩
  · intro l1 l2 bad hbad
    simp [getJobs, List.filterMap_append, List.filterMap_cons, hbad]
  · intro ids
    induction ids with
    | nil => simp [getJobs]
    | cons i ids ih =>
      cases hf : findJob db i with
      | none =>
        simp only [getJobs, List.filterMap_cons, hf]
        exact List.Sublist.cons i ih
      | some j =>
        have hid : j.id = i := by
          have h2 := List.find?_some hf
          simpa using h2
        simp only [getJobs, List.filterMap_cons, hf, List.map_cons]
        rw [hid]
        exact List.Sublist.cons₂ i ih
  · intro ids i j hmem hfind
    unfold getJobs
    exact List.mem_filterMap.2 ⟨i, hmem, hfind⟩

/-- Second example job, owned by the same owner. -/
def job1 : Job :=
  { id := "job2", ownerId := "owner1", status := JobStatus.Posted,
    applicants := [], assignedDriverId := none, images := [],
    title := "u", createdAt := 1, finishedAt := none }

/-- Witness for C6: over a concrete two-job store, a dead id in the
middle of the batch is skipped, order is preserved, and a live id
resolves. -/
theorem getJobs_skip_and_order_witness :
    getJobs [job0, job1] (["job1"] ++ "deadbeef" :: ["job2"]) "u" =
        getJobs [job0, job1] ["job1"] "u" ++ getJobs [job0, job1] ["job2"] "u" ∧
    ((getJobs [job0, job1] ["job1", "deadbeef", "job2"] "u").map Job.id).Sublist
      ["job1", "deadbeef", "job2"] ∧
    job0 ∈ getJobs [job0, job1] ["job1", "deadbeef", "job2"] "u" :=
  ⟨(getJobs_skip_and_order [job0, job1] "u").1 ["job1"] ["job2"] "deadbeef" rfl,
   (getJobs_skip_and_order [job0, job1] "u").2.1 ["job1", "deadbeef", "job2"],
   (getJobs_skip_and_order [job0, job1] "u").2.2 ["job1", "deadbeef", "job2"]
     "job1" job0 (by simp) rfl⟩

/-- Splitting a five-element duplicate-free list into pages of two,
two and one by take/drop partitions it. -/
theorem pages_partition_of_length_five (L : List String) (hL : L.length = 5)
    (hnd : L.Nodup) :
    (L.drop 0).take 2 ++ ((L.drop 2).take 2 ++ (L.drop 4).take 2) = L ∧
    ((L.drop 0).take 2).length = 2 ∧
    ((L.drop 2).take 2).length = 2 ∧
    ((L.drop 4).take 2).length = 1 ∧
    ((L.drop 0).take 2).Disjoint ((L.drop 2).take 2) ∧
    ((L.drop 0).take 2).Disjoint ((L.drop 4).take 2) ∧
    ((L.drop 2).take 2).Disjoint ((L.drop 4).take 2) := by
  have h4 : (L.drop 4).length = 1 := by simp [List.length_drop, hL]
  have h3 : (L.drop 4).take 2 = L.drop 4 := List.take_of_length_le (by omega)
  have hdd : (L.drop 2).drop 2 = L.drop 4 := by
    rw [List.drop_drop]
  have hsplit : (L.drop 0).take 2 ++ ((L.drop 2).take 2 ++ (L.drop 4).take 2) =
      L := by
    rw [List.drop_zero, h3, ← hdd, List.take_append_drop, List.take_append_drop]
  have hnd' :
      ((L.drop 0).take 2 ++ ((L.drop 2).take 2 ++ (L.drop 4).take 2)).Nodup := by
    rw [hsplit]; exact hnd
  rw [List.nodup_append] at hnd'
  obtain ⟨-, hnd2, hdisj⟩ := hnd'
  rw [List.nodup_append] at hnd2
  rw [List.disjoint_append_right] at hdisj
  refine ⟨hsplit, ?_, ?_, ?_, hdisj.1, hdisj.2, hnd2.2.2⟩
  · simp [List.length_take, hL]
  · simp [List.length_take, List.length_drop, hL]
  · simp [h3, h4]

/-- C5: over a store whose matching jobs number five with distinct ids,
`getJobIds` returns the ids most-recent-first, and the pages with
limit 2 / offset 0, limit 2 / offset 2 and the remainder concatenate to
exactly the ordered matching id list, are a permutation of the matching
ids (no duplicate, no omission), have sizes 2, 2 and 1, and are pairwise
disjoint. -/
theorem getJobIds_pagination (db : List Job) (userId : String)
    (f : JobFilterQuery)
    (h5 : (db.filter (jobMatches userId f none)).length = 5)
    (hnd : ((db.filter (jobMatches userId f none)).map Job.id).Nodup) :
    List.Sorted moreRecent (sortedMatching db userId f none) ∧
    getJobIds db userId f 2 0 none ++
        (getJobIds db userId f 2 2 none ++ getJobIds db userId f 2 4 none) =
      (sortedMatching db userId f none).map Job.id ∧
    ((sortedMatching db userId f none).map Job.id).Perm
      ((db.filter (jobMatches userId f none)).map Job.id) ∧
    (getJobIds db userId f 2 0 none).length = 2 ∧
    (getJobIds db userId f 2 2 none).length = 2 ∧
    (getJobIds db userId f 2 4 none).length = 1 ∧
    (getJobIds db userId f 2 0 none).Disjoint (getJobIds db userId f 2 2 none) ∧
    (getJobIds db userId f 2 0 none).Disjoint (getJobIds db userId f 2 4 none) ∧
    (getJobIds db userId f 2 2 none).Disjoint
      (getJobIds db userId f 2 4 none) := by
  have hperm : ((sortedMatching db userId f none).map Job.id).Perm
      ((db.filter (jobMatches userId f none)).map Job.id) :=
    (List.perm_insertionSort moreRecent _).map Job.id
  have hL : ((sortedMatching db userId f none).map Job.id).length = 5 := by
    rw [hperm.length_eq, List.length_map, h5]
  have hndL : ((sortedMatching db userId f none).map Job.id).Nodup :=
    hperm.nodup_iff.2 hnd
  have hcore := pages_partition_of_length_five _ hL hndL
  exact ⟨List.sorted_insertionSort moreRecent _, hcore.1, hperm, hcore.2.1,
    hcore.2.2.1, hcore.2.2.2.1, hcore.2.2.2.2.1, hcore.2.2.2.2.2.1,
    hcore.2.2.2.2.2.2⟩

/-- Job with a given id and creation time, otherwise like `job0`. -/
def mkJob (i : String) (t : Nat) : Job :=
  { id := i, ownerId := "owner1", status := JobStatus.Posted,
    applicants := [], assignedDriverId := none, images := [],
    title := "t", createdAt := t, finishedAt := none }

/-- Concrete store of five distinct jobs. -/
def db5 : List Job :=
  [mkJob "a" 1, mkJob "b" 5, mkJob "c" 3, mkJob "d" 2, mkJob "e" 4]

/-- Witness for C5: the three concrete pages over a five-job store
concatenate to exactly the ordered matching id list. -/
theorem getJobIds_pagination_witness :
    getJobIds db5 "u" { owned := false, assigned := false, finished := false }
        2 0 none ++
      (getJobIds db5 "u"
          { owned := false, assigned := false, finished := false } 2 2 none ++
        getJobIds db5 "u"
          { owned := false, assigned := false, finished := false } 2 4 none) =
      (sortedMatching db5 "u"
        { owned := false, assigned := false, finished := false } none).map
        Job.id :=
  (getJobIds_pagination db5 "u"
    { owned := false, assigned := false, finished := false }
    (by decide) (by decide)).2.1

/-- C3: `completeJob` fails with the authorization error unless the
caller is the owner or the assigned driver, fails with the state error
when the job is not currently `Assigned`, and on success sets the status
to `Completed` and a non-null `finishedAt`. -/
theorem completeJob_contract (j : Job) (c : String) (now : Nat) :
    (¬ (c = j.ownerId ∨ j.assignedDriverId = some c) →
      completeJob j c now = Except.error ServiceError.authorizationError) ∧
    ((c = j.ownerId ∨ j.assignedDriverId = some c) →
      j.status ≠ JobStatus.Assigned →
      completeJob j c now = Except.error ServiceError.stateError) ∧
    ((c = j.ownerId ∨ j.assignedDriverId = some c) →
      j.status = JobStatus.Assigned →
      completeJob j c now =
        Except.ok { j with status := JobStatus.Completed,
                           finishedAt := some now }) ∧
    (∀ j', completeJob j c now = Except.ok j' →
      j'.status = JobStatus.Completed ∧ j'.finishedAt = some now ∧
        j'.finishedAt ≠ none) := by
  refine ⟨?_, ?_, ?_, ?_⟩
  · intro h
    simp [completeJob, h]
  · intro h1 h2
    simp [completeJob, h1, h2]
  · intro h1 h2
    simp [completeJob, h1, h2]
  · intro j' h
    unfold completeJob at h
    split at h
    · split at h
      · simp only [Except.ok.injEq] at h
        subst h
        simp
      · simp at h
    · simp at h

/-- Concrete assigned job used by witnesses. -/
def jobAssigned : Job :=
  { id := "job1", ownerId := "owner1", status := JobStatus.Assigned,
    applicants := ["d1", "d2"], assignedDriverId := some "d1", images := [],
    title := "t", createdAt := 0, finishedAt := none }

/-- Witness for C3: the assigned driver completes a concrete assigned
job, which sets `Completed` and the finishing time. -/
theorem completeJob_contract_witness :
    completeJob jobAssigned "d1" 7 =
      Except.ok { jobAssigned with status := JobStatus.Completed,
                                   finishedAt := some 7 } :=
  (completeJob_contract jobAssigned "d1" 7).2.2.1 (Or.inr rfl) rfl

/-- C4: `addJobApplicant` fails with the authorization error when the
caller is the owner, fails with the conflict error when the user is
already an applicant or already the assigned driver, and a second call
with the same pair after a successful first one fails with the conflict
error instead of being a no-op. -/
theorem addJobApplicant_contract (j : Job) (u : String) :
    (u = j.ownerId →
      addJobApplicant j u = Except.error ServiceError.authorizationError) ∧
    (u ≠ j.ownerId → (u ∈ j.applicants ∨ j.assignedDriverId = some u) →
      addJobApplicant j u = Except.error ServiceError.conflictError) ∧
    (∀ j', addJobApplicant j u = Except.ok j' →
      addJobApplicant j' u = Except.error ServiceError.conflictError) := by
  refine ⟨?_, ?_, ?_⟩
  · intro h
    simp [addJobApplicant, h]
  · intro h1 h2
    simp [addJobApplicant, h1, h2]
  · intro j' h
    unfold addJobApplicant at h
    split at h
    case isTrue h1 => simp at h
    case isFalse h1 =>
      split at h
      case isTrue h2 => simp at h
      case isFalse h2 =>
        simp only [Except.ok.injEq] at h
        subst h
        simp [addJobApplicant, h1]

/-- Result of the first concrete application. -/
def jobApplied : Job :=
  { job0 with applicants := ["d1"], status := JobStatus.Applied }

/-- Witness for C4: applying twice with the same concrete pair makes the
second call fail with the conflict error. -/
theorem addJobApplicant_contract_witness :
    addJobApplicant jobApplied "d1" =
      Except.error ServiceError.conflictError :=
  (addJobApplicant_contract job0 "d1").2.2 jobApplied rfl

/-- C7: a successful `denyDriver` removes exactly the named driver from
the applicant list, leaves every other applicant's membership unchanged,
and leaves the status enum label unchanged. -/
theorem denyDriver_frame (j : Job) (c d : String) (j' : Job)
    (hnd : j.applicants.Nodup) (h : denyDriver j c d = Except.ok j') :
    d ∉ j'.applicants ∧
    (∀ x, x ≠ d → (x ∈ j'.applicants ↔ x ∈ j.applicants)) ∧
    j'.applicants = j.applicants.erase d ∧
    j'.status = j.status := by
  unfold denyDriver at h
  split at h
  case isTrue h1 =>
    split at h
    case isTrue h2 =>
      simp only [Except.ok.injEq] at h
      subst h
      refine ⟨?_, ?_, rfl, rfl⟩
      · intro hc
        exact ((List.Nodup.mem_erase_iff hnd).1 hc).1 rfl
      · intro x hx
        exact List.mem_erase_of_ne hx
    case isFalse h2 => simp at h
  case isFalse h1 => simp at h

/-- Concrete applied job with two applicants. -/
def jobTwoApplicants : Job :=
  { job0 with applicants := ["d1", "d2"], status := JobStatus.Applied }

/-- Result of denying the first concrete applicant. -/
def jobDenied : Job :=
  { jobTwoApplicants with applicants := ["d2"] }

/-- Witness for C7: denying a concrete applicant removes that applicant,
yields exactly the erased list, and keeps the status. -/
theorem denyDriver_frame_witness :
    "d1" ∉ jobDenied.applicants ∧
    jobDenied.applicants = jobTwoApplicants.applicants.erase "d1" ∧
    jobDenied.status = jobTwoApplicants.status :=
  ⟨(denyDriver_frame jobTwoApplicants "owner1" "d1" jobDenied
      (by decide) rfl).1,
   (denyDriver_frame jobTwoApplicants "owner1" "d1" jobDenied
      (by decide) rfl).2.2.1,
   (denyDriver_frame jobTwoApplicants "owner1" "d1" jobDenied
      (by decide) rfl).2.2.2⟩

/-- Modelled from the spec: the helper `stringToBooleanAllowNull` of
`helpers` is not under src/ (only its route caller is). It maps the
string "true" to true and "false" to false, and every absent or invalid
value to null. -/
def stringToBooleanAllowNull : Option String → Option Bool
  | some "true" => some true
  | some "false" => some false
  | _ => none

/-- Numeric value of a digit string. -/
def digitsVal (cs : List Char) : Nat :=
  cs.foldl (fun acc c => acc * 10 + (c.toNat - 48)) 0

/-- JavaScript `parseInt(s, 10)`: skip leading whitespace, read an
optional sign and then the longest leading digit run; `none` (NaN) when
no digit follows. -/
def parseIntJS (s : String) : Option Int :=
  match s.toList.dropWhile (fun c => c.isWhitespace) with
  | '-' :: rest =>
      let ds := rest.takeWhile Char.isDigit
      if ds.isEmpty then none else some (-(digitsVal ds : Int))
  | '+' :: rest =>
      let ds := rest.takeWhile Char.isDigit
      if ds.isEmpty then none else some (digitsVal ds : Int)
  | rest =>
      let ds := rest.takeWhile Char.isDigit
      if ds.isEmpty then none else some (digitsVal ds : Int)

/-- Raw query string of the job-listing request; absent parameters are
`none`. -/
structure JobsQuery where
  owned : Option String
  assigned : Option String
  finished : Option String
  offset : Option String
  limit : Option String
  search : Option String
deriving DecidableEq, Repr

/-- Successful response body of the job-listing route. -/
structure JobsResponse where
  jobs : List Job
  lastPage : Bool
deriving DecidableEq, Repr

/-- The GET /jobs route handler: parses the three boolean filters,
requires `offset` and `limit` to be present and to parse under
`parseInt`, then lists the jobs; its `lastPage` field is the constant
`false` declared at the top of the handler. -/
def getJobsRoute (db : List Job) (userId : String) (q : JobsQuery) :
    Except ServiceError JobsResponse :=
  match stringToBooleanAllowNull q.owned, stringToBooleanAllowNull q.assigned,
      stringToBooleanAllowNull q.finished with
  | some owned, some assigned, some finished =>
      match q.offset, q.limit with
      | some offsetStr, some limitStr =>
          match parseIntJS offsetStr, parseIntJS limitStr with
          | some offsetVal, some limitVal =>
              let jobIds := getJobIds db userId
                { owned := owned, assigned := assigned, finished := finished }
                limitVal.toNat offsetVal.toNat q.search
              Except.ok { jobs := getJobs db jobIds userId, lastPage := false }
          | _, _ =>
              Except.error
                (ServiceError.validationError "INVALID_PAGINATION_INPUT")
      | _, _ =>
          Except.error (ServiceError.validationError "INVALID_PAGINATION_INPUT")
  | _, _, _ =>
      Except.error (ServiceError.validationError "INVALID_BOOLEAN_VALUE")

/-- Modelled from the spec: the helper `validateId` of `helpers` is not
under src/ (only its route callers are). The repository's native id
format is the MongoDB ObjectId: 24 hexadecimal characters. -/
def isValidObjectId (s : String) : Bool :=
  s.length == 24 && s.toList.all (fun c =>
    c.isDigit || ('a' ≤ c && c ≤ 'f') || ('A' ≤ c && c ≤ 'F'))

/-- Modelled from the spec: `validateId` returns the id when it has the
native format and raises a validation error otherwise. -/
def validateId (s : String) : Except ServiceError String :=
  if isValidObjectId s then Except.ok s
  else Except.error (ServiceError.validationError "INVALID_OBJECT_ID")

/-- The PATCH /jobs/:jobid/assign-driver route handler: validates the
job id from the path, but takes the driver id from the request body
without validation and passes it straight to `assignDriver`. -/
def assignDriverRoute (db : List Job) (jobidParam : String)
    (driverIdBody : String) (sessionUser : String) :
    Except ServiceError Job :=
  match validateId jobidParam with
  | Except.error e => Except.error e
  | Except.ok jobId =>
      match findJob db jobId with
      | none => Except.error ServiceError.notFoundError
      | some job => assignDriver job sessionUser driverIdBody

/-- The PATCH /jobs/:jobid/deny-driver route handler: validates the job
id from the path, but takes the driver id from the request body without
validation and passes it straight to `denyDriver`. -/
def denyDriverRoute (db : List Job) (jobidParam : String)
    (driverIdBody : String) (sessionUser : String) :
    Except ServiceError Job :=
  match validateId jobidParam with
  | Except.error e => Except.error e
  | Except.ok jobId =>
      match findJob db jobId with
      | none => Except.error ServiceError.notFoundError
      | some job => denyDriver job sessionUser driverIdBody

/-- The POST /jobs/get-by-ids route handler: validates every id of the
body list before bulk-resolving them. -/
def getByIdsRoute (db : List Job) (jobIds : List String) (userId : String) :
    Except ServiceError (List Job) :=
  if jobIds.all isValidObjectId then Except.ok (getJobs db jobIds userId)
  else Except.error (ServiceError.validationError "INVALID_OBJECT_ID")

/-- C2 counterexample: a negative `limit` is not rejected — the listing
route accepts limit "-1" (which `parseInt` maps to the negative integer
-1) and answers successfully instead of raising a validation error, so
the claim that limit and offset must be non-negative integers fails. -/
theorem getJobsRoute_accepts_negative_limit :
    parseIntJS "-1" = some (-1) ∧
    getJobsRoute [] "u"
        { owned := some "true", assigned := some "false",
          finished := some "false", offset := some "0",
          limit := some "-1", search := none } =
      Except.ok { jobs := [], lastPage := false } :=
  ⟨rfl, rfl⟩

/-- C2 (amended): the listing route raises the boolean validation error
when any of the three boolean parameters is absent or not a valid
boolean string; it raises the pagination validation error when `offset`
or `limit` is absent or non-numeric under `parseInt`; any value that
`parseInt` maps to an integer — negative integers included — is
accepted. -/
theorem getJobsRoute_validation (db : List Job) (userId : String)
    (q : JobsQuery) :
    (stringToBooleanAllowNull q.owned = none ∨
     stringToBooleanAllowNull q.assigned = none ∨
     stringToBooleanAllowNull q.finished = none →
      getJobsRoute db userId q =
        Except.error (ServiceError.validationError "INVALID_BOOLEAN_VALUE")) ∧
    (∀ b1 b2 b3, stringToBooleanAllowNull q.owned = some b1 →
      stringToBooleanAllowNull q.assigned = some b2 →
      stringToBooleanAllowNull q.finished = some b3 →
      (q.offset = none ∨ q.limit = none) →
      getJobsRoute db userId q =
        Except.error
          (ServiceError.validationError "INVALID_PAGINATION_INPUT")) ∧
    (∀ b1 b2 b3 os ls, stringToBooleanAllowNull q.owned = some b1 →
      stringToBooleanAllowNull q.assigned = some b2 →
      stringToBooleanAllowNull q.finished = some b3 →
      q.offset = some os → q.limit = some ls →
      (parseIntJS os = none ∨ parseIntJS ls = none) →
      getJobsRoute db userId q =
        Except.error
          (ServiceError.validationError "INVALID_PAGINATION_INPUT")) ∧
    (∀ b1 b2 b3 os ls o l, stringToBooleanAllowNull q.owned = some b1 →
      stringToBooleanAllowNull q.assigned = some b2 →
      stringToBooleanAllowNull q.finished = some b3 →
      q.offset = some os → q.limit = some ls →
      parseIntJS os = some o → parseIntJS ls = some l →
      getJobsRoute db userId q =
        Except.ok
          { jobs := getJobs db
              (getJobIds db userId
                { owned := b1, assigned := b2, finished := b3 }
                l.toNat o.toNat q.search) userId,
            lastPage := false }) := by
  refine ⟨?_, ?_, ?_, ?_⟩
  · intro h
    rcases h with h | h | h
    · cases ha : stringToBooleanAllowNull q.assigned <;>
        cases hf : stringToBooleanAllowNull q.finished <;>
          simp [getJobsRoute, h, ha, hf]
    · cases ho : stringToBooleanAllowNull q.owned <;>
        cases hf : stringToBooleanAllowNull q.finished <;>
          simp [getJobsRoute, h, ho, hf]
    · cases ho : stringToBooleanAllowNull q.owned <;>
        cases ha : stringToBooleanAllowNull q.assigned <;>
          simp [getJobsRoute, h, ho, ha]
  · intro b1 b2 b3 h1 h2 h3 hol
    rcases hol with h | h
    · cases hl : q.limit <;> simp [getJobsRoute, h1, h2, h3, h, hl]
    · cases ho : q.offset <;> simp [getJobsRoute, h1, h2, h3, h, ho]
  · intro b1 b2 b3 os ls h1 h2 h3 ho hl hp
    rcases hp with h | h
    · cases hpl : parseIntJS ls <;>
        simp [getJobsRoute, h1, h2, h3, ho, hl, h, hpl]
    · cases hpo : parseIntJS os <;>
        simp [getJobsRoute, h1, h2, h3, ho, hl, h, hpo]
  · intro b1 b2 b3 os ls o l h1 h2 h3 ho hl hpo hpl
    simp [getJobsRoute, h1, h2, h3, ho, hl, hpo, hpl]

/-- Witness for C2 (amended): an invalid boolean string fails with the
boolean validation error on a concrete query. -/
theorem getJobsRoute_validation_witness :
    getJobsRoute [] "u"
        { owned := some "yes", assigned := some "true",
          finished := some "false", offset := some "0", limit := some "2",
          search := none } =
      Except.error (ServiceError.validationError "INVALID_BOOLEAN_VALUE") :=
  (getJobsRoute_validation [] "u"
    { owned := some "yes", assigned := some "true",
      finished := some "false", offset := some "0", limit := some "2",
      search := none }).1 (Or.inl rfl)

/-- A syntactically valid ObjectId (24 hexadecimal characters). -/
def validJobId : String := "aaaaaaaaaaaaaaaaaaaaaaaa"

/-- Concrete posted job stored under a valid ObjectId. -/
def jobForAssign : Job := { job0 with id := validJobId }

/-- Modelled from the spec: `getJob` of `services/job` is not under
src/. It returns the full job document, with a not-found error when the
id does not resolve; visibility is unrestricted. -/
def getJob (db : List Job) (jobId : String) (userId : String) :
    Except ServiceError Job :=
  match findJob db jobId with
  | none => Except.error ServiceError.notFoundError
  | some job => Except.ok job

/-- Modelled from the spec: `deleteJob` of `services/job` is not under
src/. It fails with an authorization error unless the caller is the
owner and otherwise removes the job from the store. -/
def deleteJob (db : List Job) (userId : String) (jobId : String) :
    Except ServiceError (List Job) :=
  match findJob db jobId with
  | none => Except.error ServiceError.notFoundError
  | some job =>
      if userId = job.ownerId then
        Except.ok (db.filter (fun x => x.id != jobId))
      else Except.error ServiceError.authorizationError

/-- The PATCH /jobs/:jobid route handler: validates the job id from the
path before the `updateJob` core call. -/
def updateJobRoute (db : List Job) (jobidParam : String) (p : JobPayload)
    (images : List String) (sessionUser : String) : Except ServiceError Job :=
  match validateId jobidParam with
  | Except.error e => Except.error e
  | Except.ok jobId =>
      match findJob db jobId with
      | none => Except.error ServiceError.notFoundError
      | some job => updateJob sessionUser job p images

/-- The DELETE /jobs/:jobid route handler: validates the job id from the
path before the `deleteJob` core call. -/
def deleteJobRoute (db : List Job) (jobidParam : String)
    (sessionUser : String) : Except ServiceError (List Job) :=
  match validateId jobidParam with
  | Except.error e => Except.error e
  | Except.ok jobId => deleteJob db sessionUser jobId

/-- The GET /jobs/:jobid route handler: validates the job id from the
path before the `getJob` core call. -/
def getJobRoute (db : List Job) (jobidParam : String)
    (sessionUser : String) : Except ServiceError Job :=
  match validateId jobidParam with
  | Except.error e => Except.error e
  | Except.ok jobId => getJob db jobId sessionUser

/-- The PATCH /jobs/:jobid/apply route handler: validates the job id
from the path before the `addJobApplicant` core call. -/
def applyRoute (db : List Job) (jobidParam : String)
    (sessionUser : String) : Except ServiceError Job :=
  match validateId jobidParam with
  | Except.error e => Except.error e
  | Except.ok jobId =>
      match findJob db jobId with
      | none => Except.error ServiceError.notFoundError
      | some job => addJobApplicant job sessionUser

/-- The PATCH /jobs/:jobid/complete route handler: validates the job id
from the path before the `completeJob` core call. -/
def completeRoute (db : List Job) (jobidParam : String)
    (sessionUser : String) (now : Nat) : Except ServiceError Job :=
  match validateId jobidParam with
  | Except.error e => Except.error e
  | Except.ok jobId =>
      match findJob db jobId with
      | none => Except.error ServiceError.notFoundError
      | some job => completeJob job sessionUser now

/-- C8 counterexample: the assign-driver route validates the job id but
passes the body's driver id to the lifecycle engine without any format
validation: a driver id that is not a valid ObjectId is accepted and
stored as `assignedDriverId`. -/
theorem assignDriverRoute_passes_malformed_driverId :
    isValidObjectId "not-a-valid-id" = false ∧
    assignDriverRoute [jobForAssign] validJobId "not-a-valid-id" "owner1" =
      Except.ok { jobForAssign with status := JobStatus.Assigned,
                                    assignedDriverId := some "not-a-valid-id" } :=
  ⟨rfl, rfl⟩

/-- C8 (amended): job ids in the path of every route (update, delete,
get-one, apply, assign-driver, deny-driver, complete) and in get-by-ids
bodies are validated against the ObjectId format before any core call —
a malformed job id fails with the validation error and never reaches a
core operation — but the driver ids in assign-driver and deny-driver
bodies are handed to the lifecycle engine unvalidated. -/
theorem id_validation_scope (db : List Job) :
    (∀ p d u, isValidObjectId p = false →
      assignDriverRoute db p d u =
        Except.error (ServiceError.validationError "INVALID_OBJECT_ID")) ∧
    (∀ p d u, isValidObjectId p = false →
      denyDriverRoute db p d u =
        Except.error (ServiceError.validationError "INVALID_OBJECT_ID")) ∧
    (∀ ids u, ids.all isValidObjectId = false →
      getByIdsRoute db ids u =
        Except.error (ServiceError.validationError "INVALID_OBJECT_ID")) ∧
    (∀ p payload images u, isValidObjectId p = false →
      updateJobRoute db p payload images u =
        Except.error (ServiceError.validationError "INVALID_OBJECT_ID")) ∧
    (∀ p u, isValidObjectId p = false →
      deleteJobRoute db p u =
        Except.error (ServiceError.validationError "INVALID_OBJECT_ID")) ∧
    (∀ p u, isValidObjectId p = false →
      getJobRoute db p u =
        Except.error (ServiceError.validationError "INVALID_OBJECT_ID")) ∧
    (∀ p u, isValidObjectId p = false →
      applyRoute db p u =
        Except.error (ServiceError.validationError "INVALID_OBJECT_ID")) ∧
    (∀ p u now, isValidObjectId p = false →
      completeRoute db p u now =
        Except.error (ServiceError.validationError "INVALID_OBJECT_ID")) ∧
    (∀ p d u job, isValidObjectId p = true → findJob db p = some job →
      assignDriverRoute db p d u = assignDriver job u d) ∧
    (∀ p d u job, isValidObjectId p = true → findJob db p = some job →
      denyDriverRoute db p d u = denyDriver job u d) := by
  refine ⟨?_, ?_, ?_, ?_, ?_, ?_, ?_, ?_, ?_, ?_⟩
  · intro p d u h
    simp [assignDriverRoute, validateId, h]
  · intro p d u h
    simp [denyDriverRoute, validateId, h]
  · intro ids u h
    simp [getByIdsRoute, h]
  · intro p payload images u h
    simp [updateJobRoute, validateId, h]
  · intro p u h
    simp [deleteJobRoute, validateId, h]
  · intro p u h
    simp [getJobRoute, validateId, h]
  · intro p u h
    simp [applyRoute, validateId, h]
  · intro p u now h
    simp [completeRoute, validateId, h]
  · intro p d u job h hfind
    simp [assignDriverRoute, validateId, h, hfind]
  · intro p d u job h hfind
    simp [denyDriverRoute, validateId, h, hfind]

/-- Witness for C8 (amended): a malformed job id fails with the
validation error on the assign-driver route. -/
theorem id_validation_scope_witness :
    assignDriverRoute [] "bad" "d1" "owner1" =
      Except.error (ServiceError.validationError "INVALID_OBJECT_ID") :=
  (id_validation_scope []).1 "bad" "d1" "owner1" rfl

/-- C10: every successful response of the listing route carries
`lastPage = false`, whatever remains beyond the requested window. -/
theorem getJobsRoute_lastPage_false (db : List Job) (userId : String)
    (q : JobsQuery) (r : JobsResponse) :
    getJobsRoute db userId q = Except.ok r → r.lastPage = false := by
  intro h
  unfold getJobsRoute at h
  split at h
  · split at h
    · split at h
      · simp only [Except.ok.injEq] at h
        subst h
        rfl
      · simp at h
    · simp at h
  · simp at h

/-- Witness for C10: a concrete successful listing response has
`lastPage = false`. -/
theorem getJobsRoute_lastPage_false_witness :
    JobsResponse.lastPage { jobs := [], lastPage := false } = false :=
  getJobsRoute_lastPage_false [] "u"
    { owned := some "true", assigned := some "false",
      finished := some "false", offset := some "0", limit := some "2",
      search := none }
    { jobs := [], lastPage := false } rfl

/-- Modelled from the spec: the error kinds of the `errors` module, which
is not under src/ (only the handler that consumes it is). -/
inductive ErrKind where
  | validation
  | authorization
  | notFound
  | conflict
  | stateKind
  | repositoryUnavailable
  | unknownInternal
deriving DecidableEq, Repr

/-- Modelled from the spec: the HTTP status code carried by each error
kind. -/
def ErrKind.statusCode : ErrKind → Nat
  | ErrKind.validation => 400
  | ErrKind.authorization => 403
  | ErrKind.notFound => 404
  | ErrKind.conflict => 409
  | ErrKind.stateKind => 409
  | ErrKind.repositoryUnavailable => 503
  | ErrKind.unknownInternal => 500

/-- Modelled from the spec: a classified error of the `errors` module,
with its kind, message and optional attached context. -/
structure CustomError where
  kind : ErrKind
  message : String
  context : Option String
deriving DecidableEq, Repr

/-- Modelled from the spec: `format(clientFacing)` renders an internal
error as a generic message for the client and with its full context
otherwise. -/
def CustomError.format (e : CustomError) (clientFacing : Bool) : String :=
  if clientFacing && e.kind == ErrKind.unknownInternal then
    "Internal Server Error"
  else
    match e.context with
    | none => e.message
    | some c => e.message ++ " | " ++ c

/-- Modelled from the spec: `addContext` attaches context to an error. -/
def CustomError.addContext (e : CustomError) (ctx : String) : CustomError :=
  { e with context := some ctx }

/-- Modelled from the spec: the unclassified internal error constant. -/
def unknownInternalError : CustomError :=
  { kind := ErrKind.unknownInternal, message := "Unknown internal error",
    context := none }

/-- A value reaching the error middleware: either a classified custom
error or some raw thrown value carrying its stack. -/
inductive Thrown where
  | customErr (e : CustomError)
  | rawErr (stack : String)
deriving DecidableEq, Repr

/-- Response produced by the error middleware, together with what it
logged (`none` when nothing was logged). -/
structure ErrResponse where
  status : Nat
  message : String
  error : Bool
  logged : Option String
deriving DecidableEq, Repr

/-- The top-level error handler of the app: anything that is not a
classified custom error is first wrapped as the unknown internal error
with the raw stack as context; internal errors are logged with their
full rendering; the response carries the kind's status code, the
client-facing rendering and the flag error = true. -/
def errorHandler (t : Thrown) : ErrResponse :=
  let err := match t with
    | Thrown.customErr e => e
    | Thrown.rawErr stack => unknownInternalError.addContext stack
  { status := err.kind.statusCode,
    message := err.format true,
    error := true,
    logged := if err.kind == ErrKind.unknownInternal then
                some (err.format false)
              else none }

/-- C9: every error reaching the boundary yields a body with
error = true and the status code of its kind; an unclassified raw error
is wrapped as the unknown internal error, answered with status 500 and a
generic message independent of the raw error, and logged with its full
context including the stack. -/
theorem errorHandler_contract :
    (∀ t, (errorHandler t).error = true) ∧
    (∀ e, (errorHandler (Thrown.customErr e)).status = e.kind.statusCode ∧
      (errorHandler (Thrown.customErr e)).message = e.format true) ∧
    (∀ stack, errorHandler (Thrown.rawErr stack) =
      { status := 500, message := "Internal Server Error", error := true,
        logged := some ("Unknown internal error" ++ " | " ++ stack) }) := by
  refine ⟨?_, ?_, ?_⟩
  · intro t
    cases t <;> rfl
  · intro e
    exact ⟨rfl, rfl⟩
  · intro stack
    rfl
